import Mathlib

/-!
Shallow embedding of the authentication and authorization core of the
Sunainscent FastAPI backend (src/utils/auth.py, src/routes/auth.py,
src/routes/admin.py, src/config/settings.py), together with theorems
settling the specification claims about it.

Modelling conventions:
- Time is measured in minutes since an arbitrary epoch (the code stores
  `exp` via `datetime` arithmetic with `timedelta(minutes=...)`).
- A JWT is modelled as either a payload signed with a key, or a garbage
  string (malformed or tampered tokens). `jwt.decode` (python-jose, an
  external library) checks the signature by key equality and rejects
  tokens whose `exp` claim lies strictly before the current time, which
  matches the documented jose semantics with zero leeway.  A single
  signature algorithm is configured process-wide, so the algorithm
  parameter is carried on `Settings` but plays no role in validity.
- Python claim values that matter only for truthiness (`is_admin`) are
  modelled by the small inductive `PyVal` with Python truthiness.
- The MongoDB users collection is a `List UserDoc` in insertion order;
  `find_one` is `List.find?`.  Since documents are open maps, `UserDoc`
  carries an `is_admin : Option PyVal` slot recording whether the stored
  document has an `is_admin` field at all (registration never writes one).
- The passlib `CryptContext(schemes=["bcrypt"])` backend is an external
  library.  It is modelled as an ideal salted hash: the salt (drawn
  randomly by the library) is an explicit argument, the digest is an
  injective function of password and salt (real-world collisions are the
  spec's documented negligible case), and `verify` on a string that parses
  as no configured scheme raises `UnknownHashError`, which is passlib's
  documented behaviour for unidentifiable hashes.
-/

/-- Python values relevant to the token claims, with Python truthiness. -/
inductive PyVal where
  | none
  | bool (b : Bool)
  | str (s : String)
  | int (n : Int)
deriving DecidableEq, Repr

/-- Python truthiness of a `PyVal`, as used by `not is_admin` in the code. -/
def PyVal.truthy : PyVal → Bool
  | .none => false
  | .bool b => b
  | .str s => !(s == "")
  | .int n => !(n == 0)

/-- Configuration from src/config/settings.py.  Field defaults mirror the
environment-variable defaults in the source (`JWT_ALGORITHM` defaults to
"HS256", `JWT_EXPIRATION_TIME` to 1440 minutes). -/
structure Settings where
  jwt_secret_key : String
  jwt_algorithm : String := "HS256"
  jwt_expiration_time : Nat := 1440
deriving DecidableEq, Repr

/-- Decoded JWT payload: the `sub` claim (a string or absent), the
`is_admin` claim (present with some value, or absent), and the `exp`
claim in minutes. -/
structure Payload where
  sub : Option String
  is_admin : Option PyVal
  exp : Nat
deriving DecidableEq, Repr

/-- Wire token: either a payload signed with a key, or a malformed or
tampered string that fails signature validation. -/
inductive Token where
  | signed (payload : Payload) (key : String)
  | garbage (s : String)
deriving DecidableEq, Repr

/-- Errors raised by jose `jwt.decode`; all are subclasses of `JWTError`. -/
inductive JWTErr where
  | invalid
  | expired
deriving DecidableEq, Repr

/-- Model of jose `jwt.decode(token, key, algorithms)`: signature check,
then expiry check (`exp < now` is expired). -/
def jwt_decode (token : Token) (key : String) (now : Nat) : Except JWTErr Payload :=
  match token with
  | .garbage _ => .error .invalid
  | .signed payload k =>
      if k == key then
        if payload.exp < now then .error .expired else .ok payload
      else .error .invalid

/-- FastAPI `HTTPException`, reduced to its status code and detail. -/
structure HTTPErr where
  status : Nat
  detail : String
deriving DecidableEq, Repr

/-- Status code constant `status.HTTP_401_UNAUTHORIZED`. -/
def HTTP_401_UNAUTHORIZED : Nat := 401

/-- Status code constant `status.HTTP_403_FORBIDDEN`. -/
def HTTP_403_FORBIDDEN : Nat := 403

/-- Status code constant `status.HTTP_400_BAD_REQUEST`. -/
def HTTP_400_BAD_REQUEST : Nat := 400

/-- The `credentials_exception` raised by `verify_token` (auth.py 46-50). -/
def credentials_exception : HTTPErr :=
  ⟨HTTP_401_UNAUTHORIZED, "Could not validate credentials"⟩

/-- The "User not found" exception raised by `get_current_user` (auth.py 77-81). -/
def user_not_found_exception : HTTPErr :=
  ⟨HTTP_401_UNAUTHORIZED, "User not found"⟩

/-- The `credentials_exception` raised by `verify_admin_token` (auth.py
110-114): note it carries status 401, with detail "Admin access required". -/
def admin_credentials_exception : HTTPErr :=
  ⟨HTTP_401_UNAUTHORIZED, "Admin access required"⟩

/-- The 403 exception raised by the admin route gates (admin.py 18-21,
39-42, and the other dashboard endpoints). -/
def admin_forbidden_exception : HTTPErr :=
  ⟨HTTP_403_FORBIDDEN, "Admin access required"⟩

/-- The duplicate-registration exception (routes/auth.py 16-19). -/
def email_registered_exception : HTTPErr :=
  ⟨HTTP_400_BAD_REQUEST, "Email already registered"⟩

/-- The `data` dict passed to `create_access_token`.  The two issuance
sites use `{"sub": email}` (user login) and `{"sub": email, "is_admin":
True}` (admin issuance). -/
structure TokenClaims where
  sub : Option String
  is_admin : Option PyVal := Option.none
deriving DecidableEq, Repr

/-- Model of `create_access_token` (auth.py 28-42): expiry is now plus the
given delta, defaulting to `settings.jwt_expiration_time` minutes, and the
result is the payload signed with `settings.jwt_secret_key`. -/
def create_access_token (settings : Settings) (data : TokenClaims)
    (expires_delta : Option Nat) (now : Nat) : Token :=
  let expire : Nat :=
    match expires_delta with
    | some d => now + d
    | Option.none => now + settings.jwt_expiration_time
  Token.signed ⟨data.sub, data.is_admin, expire⟩ settings.jwt_secret_key

/-- Token issuance as performed by the user-login route
(routes/auth.py 63): `create_access_token(data={"sub": user["email"]})`. -/
def login_issue_token (settings : Settings) (email : String) (now : Nat) : Token :=
  create_access_token settings ⟨some email, Option.none⟩ Option.none now

/-- Model of `create_admin_token` (auth.py 100-106): claims
`{"sub": email, "is_admin": True}` with the default expiry. -/
def create_admin_token (settings : Settings) (email : String) (now : Nat) : Token :=
  create_access_token settings ⟨some email, some (PyVal.bool true)⟩ Option.none now

/-- The `TokenData` pydantic model (validation/user_models.py 63-64). -/
structure TokenData where
  email : Option String
deriving DecidableEq, Repr

/-- Model of `verify_token` (auth.py 44-65): decode, then require the
`sub` claim; every failure maps to the single 401 `credentials_exception`. -/
def verify_token (settings : Settings) (token : Token) (now : Nat) :
    Except HTTPErr TokenData :=
  match jwt_decode token settings.jwt_secret_key now with
  | .error _ => .error credentials_exception
  | .ok payload =>
      match payload.sub with
      | Option.none => .error credentials_exception
      | some email => .ok ⟨some email⟩

/-- Output of an ideal salted hash.  `bcrypt salt digest` is a well-formed
hash of the configured scheme; `raw s` is any string that parses as no
configured scheme (malformed input). -/
inductive HashStr where
  | bcrypt (salt : Nat) (digest : String × Nat)
  | raw (s : String)
deriving DecidableEq, Repr

/-- Errors raised by passlib; `unknownHash` models `UnknownHashError`. -/
inductive PasslibErr where
  | unknownHash
deriving DecidableEq, Repr

/-- Ideal digest function: injective in the password for a fixed salt,
modelling the spec's negligible-collision assumption. -/
def ideal_digest (password : String) (salt : Nat) : String × Nat :=
  (password, salt)

/-- Model of `pwd_context.hash` with the library's random salt made an
explicit argument. -/
def pwd_context_hash (password : String) (salt : Nat) : HashStr :=
  HashStr.bcrypt salt (ideal_digest password salt)

/-- Model of `pwd_context.verify`: recompute the digest using the salt
stored in the hash and compare; a hash matching no configured scheme
raises `UnknownHashError` (documented passlib behaviour). -/
def pwd_context_verify (password : String) (hash : HashStr) :
    Except PasslibErr Bool :=
  match hash with
  | .bcrypt salt digest => .ok (ideal_digest password salt == digest)
  | .raw _ => .error .unknownHash

/-- Model of `verify_password` (auth.py 20-22): a direct delegation to
`pwd_context.verify` with no exception handling. -/
def verify_password (plain_password : String) (hashed_password : HashStr) :
    Except PasslibErr Bool :=
  pwd_context_verify plain_password hashed_password

/-- Model of `get_password_hash` (auth.py 24-26). -/
def get_password_hash (password : String) (salt : Nat) : HashStr :=
  pwd_context_hash password salt

/-- A document of the `users` collection.  Fields mirror the dict built by
`register_user` (routes/auth.py 25-31); `is_admin` records whether the
open document carries an `is_admin` field at all (registration writes
none; nothing in scope ever writes one). -/
structure UserDoc where
  email : String
  hashed_password : HashStr
  first_name : String
  phone : String
  created_at : Nat
  is_admin : Option PyVal
deriving DecidableEq, Repr

/-- The `UserInDB` pydantic model (validation/user_models.py 37-57) after
`from_mongo`; the `_id` field is omitted (no claim concerns it).
`is_admin : Optional[bool] = False` collapses to a `Bool`. -/
structure UserInDB where
  email : String
  first_name : String
  phone : String
  hashed_password : HashStr
  created_at : Nat
  is_admin : Bool
deriving DecidableEq, Repr

/-- Model of `UserInDB.from_mongo`: pydantic populates `is_admin` from the
document when a boolean field is present, else the default `False`. -/
def UserInDB.from_mongo (doc : UserDoc) : UserInDB :=
  { email := doc.email
    first_name := doc.first_name
    phone := doc.phone
    hashed_password := doc.hashed_password
    created_at := doc.created_at
    is_admin :=
      match doc.is_admin with
      | some (PyVal.bool b) => b
      | _ => false }

/-- Model of `db.users.find_one({"email": e})` where `e` may be Python
`None` (an absent claim): documents match by equality on their `email`
field. -/
def find_one_by_email (db : List UserDoc) (email : Option String) : Option UserDoc :=
  db.find? (fun u => some u.email == email)

/-- Model of `get_current_user` (auth.py 67-90): verify the token, look the
subject up in the store (401 "User not found" when absent), then compute
`is_admin` freshly as `user["email"] == os.getenv("ADMIN_EMAIL")`; when
`ADMIN_EMAIL` is unset, the Python comparison of a string with `None` is
`False`. -/
def get_current_user (settings : Settings) (admin_email : Option String)
    (db : List UserDoc) (token : Token) (now : Nat) : Except HTTPErr UserInDB :=
  match verify_token settings token now with
  | .error e => .error e
  | .ok token_data =>
      match find_one_by_email db token_data.email with
      | Option.none => .error user_not_found_exception
      | some user =>
          let is_admin : Bool :=
            match admin_email with
            | some a => user.email == a
            | Option.none => false
          let user_data := UserInDB.from_mongo user
          .ok { user_data with is_admin := is_admin }

/-- The dict returned by `verify_admin_token` on success
(auth.py 128): the raw `is_admin` claim value is passed through. -/
structure AdminData where
  email : String
  is_admin : PyVal
deriving DecidableEq, Repr

/-- Model of `verify_admin_token` (auth.py 108-130): decode, read
`payload.get("is_admin", False)`, and raise the single 401
"Admin access required" exception when the subject is `None`, the
`is_admin` claim is falsy, or decoding fails. -/
def verify_admin_token (settings : Settings) (token : Token) (now : Nat) :
    Except HTTPErr AdminData :=
  match jwt_decode token settings.jwt_secret_key now with
  | .error _ => .error admin_credentials_exception
  | .ok payload =>
      let is_admin : PyVal := payload.is_admin.getD (PyVal.bool false)
      match payload.sub with
      | Option.none => .error admin_credentials_exception
      | some email =>
          if !is_admin.truthy then .error admin_credentials_exception
          else .ok ⟨email, is_admin⟩

/-- Model of `get_current_admin` (auth.py 132-138): a direct delegation to
`verify_admin_token` on the bearer credentials. -/
def get_current_admin (settings : Settings) (token : Token) (now : Nat) :
    Except HTTPErr AdminData :=
  verify_admin_token settings token now

/-- The `UserCreate` request model (validation/user_models.py 6-10). -/
structure UserCreate where
  email : String
  password : String
  first_name : String
  phone : String
deriving DecidableEq, Repr

/-- Model of `register_user` (routes/auth.py 9-39) restricted to its store
effect: reject duplicate emails, hash the password, and insert a document
with exactly the fields of the source dict — in particular no `is_admin`
field.  The salt is the library's random draw made explicit; the returned
value is the updated users collection. -/
def register_user (db : List UserDoc) (user : UserCreate) (salt : Nat)
    (now : Nat) : Except HTTPErr (List UserDoc) :=
  match find_one_by_email db (some user.email) with
  | some _ => .error email_registered_exception
  | Option.none =>
      let hashed_password := get_password_hash user.password salt
      let user_doc : UserDoc :=
        { email := user.email
          hashed_password := hashed_password
          first_name := user.first_name
          phone := user.phone
          created_at := now
          is_admin := Option.none }
      .ok (db ++ [user_doc])

/-- Model of the `get_dashboard_stats` route (admin.py 30-42) up to its
admin gate: resolve the current user, raise 403 "Admin access required"
when `current_user.is_admin` is false, and otherwise run the statistics
aggregation body, which the spec places out of scope and which is
modelled as an opaque success. -/
def get_dashboard_stats (settings : Settings) (admin_email : Option String)
    (db : List UserDoc) (token : Token) (now : Nat) : Except HTTPErr Unit :=
  match get_current_user settings admin_email db token now with
  | .error e => .error e
  | .ok current_user =>
      if !current_user.is_admin then .error admin_forbidden_exception
      else .ok ()

/-- Reachable states of the users collection under the in-scope operations:
registration is the only in-scope operation that writes to it (login and
resolution only read). -/
inductive UsersReachable : List UserDoc → Prop where
  | empty : UsersReachable []
  | register (db db2 : List UserDoc) (user : UserCreate) (salt now : Nat) :
      UsersReachable db → register_user db user salt now = .ok db2 →
      UsersReachable db2

/-! ## Helper lemmas shared by several claim theorems -/

/-- Helper: a user-login token carries no `is_admin` claim, so
`verify_admin_token` rejects it with the single 401 exception, expired or
not. -/
theorem verify_admin_token_rejects_login_token (s : Settings) (email : String)
    (now t : Nat) :
    verify_admin_token s (login_issue_token s email now) t
      = .error admin_credentials_exception := by
  simp only [verify_admin_token, login_issue_token, create_access_token, jwt_decode]
  by_cases hlt : now + s.jwt_expiration_time < t
  · simp [hlt]
  · simp [hlt, Option.getD, PyVal.truthy]

/-- Shorthand for the freshly computed admin flag of `get_current_user`:
the Python expression `user["email"] == os.getenv("ADMIN_EMAIL")`, which is
`False` when `ADMIN_EMAIL` is unset. -/
def computed_is_admin (admin_email : Option String) (email : String) : Bool :=
  match admin_email with
  | some a => email == a
  | Option.none => false

/-- Helper: a successfully resolved principal has its `is_admin` flag equal
to the freshly computed comparison of its email with the configured admin
email, whatever the store contains. -/
theorem get_current_user_ok_is_admin (s : Settings) (admin_email : Option String)
    (db : List UserDoc) (tok : Token) (t : Nat) (u : UserInDB)
    (h : get_current_user s admin_email db tok t = .ok u) :
    u.is_admin = computed_is_admin admin_email u.email := by
  cases hv : verify_token s tok t with
  | error e => simp [get_current_user, hv] at h
  | ok td =>
      cases hf : find_one_by_email db td.email with
      | none => simp [get_current_user, hv, hf] at h
      | some user =>
          simp [get_current_user, hv, hf] at h
          rw [← h]
          cases admin_email <;> rfl

/-- Helper: an unexpired login-issued token resolves, through
`get_current_user`, to the stored user when the subject is in the store. -/
theorem get_current_user_login_token_found (s : Settings)
    (admin_email : Option String) (db : List UserDoc) (u : UserDoc)
    (email : String) (now t : Nat)
    (hexp : t ≤ now + s.jwt_expiration_time)
    (hfind : find_one_by_email db (some email) = some u) :
    get_current_user s admin_email db (login_issue_token s email now) t
      = .ok { UserInDB.from_mongo u with
              is_admin := computed_is_admin admin_email u.email } := by
  have hnl : ¬ (now + s.jwt_expiration_time < t) := by omega
  simp [get_current_user, verify_token, login_issue_token, create_access_token,
    jwt_decode, hnl, hfind, computed_is_admin]

/-! ## Claim theorems -/

/-- C6: a token issued by `create_access_token` carries expiry `now + ttl`
(the ttl defaulting to the configured `jwt_expiration_time`, whose
configured default is 1440 minutes), and `verify_token` applied to that
token before the ttl elapses returns the original subject without error. -/
theorem issue_then_verify_roundtrip (s : Settings) (data : TokenClaims)
    (ttl : Option Nat) (now t : Nat) (email : String) :
    create_access_token s data ttl now
      = Token.signed ⟨data.sub, data.is_admin, now + ttl.getD s.jwt_expiration_time⟩
          s.jwt_secret_key
    ∧ (∀ k : String, ({ jwt_secret_key := k } : Settings).jwt_expiration_time = 1440)
    ∧ (data.sub = some email → t < now + ttl.getD s.jwt_expiration_time →
        verify_token s (create_access_token s data ttl now) t = .ok ⟨some email⟩) := by
  refine ⟨?_, fun k => rfl, ?_⟩
  · cases ttl <;> rfl
  · intro hsub hlt
    have hnl : ¬ (now + ttl.getD s.jwt_expiration_time < t) := by omega
    cases ttl with
    | none =>
        simp only [Option.getD] at hnl
        simp [verify_token, create_access_token, jwt_decode, hsub, hnl]
    | some d =>
        simp only [Option.getD] at hnl
        simp [verify_token, create_access_token, jwt_decode, hsub, hnl]

/-- C6 witness: issuing with the default ttl at time 0 and verifying at
time 100 returns the original subject. -/
theorem issue_then_verify_roundtrip_witness :
    verify_token ⟨"secret", "HS256", 1440⟩
      (create_access_token ⟨"secret", "HS256", 1440⟩ ⟨some "a@x.com", Option.none⟩
        Option.none 0) 100
      = .ok ⟨some "a@x.com"⟩ :=
  (issue_then_verify_roundtrip ⟨"secret", "HS256", 1440⟩
    ⟨some "a@x.com", Option.none⟩ Option.none 0 100 "a@x.com").2.2 rfl (by decide)

/-- C7: the credential hasher round-trips — a password verifies against its
own hash, a different password does not, and two hashes of the same
password under different salts are different strings yet both verify. -/
theorem password_hash_roundtrip (p p1 p2 : String) (salt s1 s2 : Nat) :
    verify_password p (get_password_hash p salt) = .ok true
    ∧ (p1 ≠ p2 → verify_password p1 (get_password_hash p2 salt) = .ok false)
    ∧ (s1 ≠ s2 →
        get_password_hash p s1 ≠ get_password_hash p s2
        ∧ verify_password p (get_password_hash p s1) = .ok true
        ∧ verify_password p (get_password_hash p s2) = .ok true) := by
  refine ⟨?_, ?_, ?_⟩
  · simp [verify_password, pwd_context_verify, get_password_hash, pwd_context_hash]
  · intro hne
    simp [verify_password, pwd_context_verify, get_password_hash, pwd_context_hash,
      ideal_digest, Prod.ext_iff, hne]
  · intro hne
    refine ⟨?_, ?_, ?_⟩
    · simp [get_password_hash, pwd_context_hash, hne]
    · simp [verify_password, pwd_context_verify, get_password_hash, pwd_context_hash]
    · simp [verify_password, pwd_context_verify, get_password_hash, pwd_context_hash]

/-- C7 witness: concrete round trips with distinct passwords and salts. -/
theorem password_hash_roundtrip_witness :
    verify_password "pw123456" (get_password_hash "pw123456" 1) = .ok true
    ∧ verify_password "alpha1" (get_password_hash "beta22" 1) = .ok false
    ∧ get_password_hash "pw123456" 1 ≠ get_password_hash "pw123456" 2 :=
  ⟨(password_hash_roundtrip "pw123456" "a" "b" 1 1 2).1,
   (password_hash_roundtrip "x" "alpha1" "beta22" 1 1 2).2.1 (by decide),
   ((password_hash_roundtrip "pw123456" "a" "b" 1 1 2).2.2 (by decide)).1⟩

/-- C8 counterexample: on a malformed (non-bcrypt) second argument,
`verify_password` raises passlib's `UnknownHashError` — it does not return
false. -/
theorem verify_password_malformed_counterexample :
    verify_password "password123" (HashStr.raw "not-a-bcrypt-hash")
      = .error PasslibErr.unknownHash
    ∧ verify_password "password123" (HashStr.raw "not-a-bcrypt-hash")
      ≠ .ok false :=
  ⟨rfl, fun h => Except.noConfusion h⟩

/-- C8 amended: for every password and every malformed hash input,
`verify_password` propagates `UnknownHashError` (the wrapper adds no
handling), rather than returning false. -/
theorem verify_password_malformed_raises (p s : String) :
    verify_password p (HashStr.raw s) = .error PasslibErr.unknownHash := rfl

/-- C10: `verify_admin_token` accepts every validly signed, unexpired token
whose payload has a non-null subject and any truthy `is_admin` claim value,
and passes the raw claim value through unchanged in the result. -/
theorem admin_token_truthy_accepts (s : Settings) (payload : Payload)
    (t : Nat) (email : String) (v : PyVal)
    (hsub : payload.sub = some email) (hadm : payload.is_admin = some v)
    (htruthy : v.truthy = true) (hexp : ¬ payload.exp < t) :
    verify_admin_token s (Token.signed payload s.jwt_secret_key) t
      = .ok ⟨email, v⟩ := by
  simp [verify_admin_token, jwt_decode, hexp, hsub, hadm, Option.getD, htruthy]

/-- C10 witness: a signed token with the non-boolean truthy claim
`is_admin = "yes"` is accepted and the string is passed through. -/
theorem admin_token_truthy_accepts_witness :
    verify_admin_token ⟨"k", "HS256", 1440⟩
      (Token.signed ⟨some "a@x.com", some (PyVal.str "yes"), 100⟩ "k") 5
      = .ok ⟨"a@x.com", PyVal.str "yes"⟩ :=
  admin_token_truthy_accepts ⟨"k", "HS256", 1440⟩
    ⟨some "a@x.com", some (PyVal.str "yes"), 100⟩ 5 "a@x.com" (PyVal.str "yes")
    rfl rfl (by decide) (by decide)

/-- C1 counterexample: the independence is not mutual.  An admin-issued
token (claims subject plus `is_admin: true`) for an email that exists in
the store is accepted by `get_current_user`: `verify_token` ignores the
extra `is_admin` claim, so the admin token resolves to the stored user. -/
theorem token_path_independence_counterexample :
    get_current_user ⟨"k", "HS256", 1440⟩ (some "admin@x.com")
      [⟨"admin@x.com", HashStr.raw "h", "Ada", "0300000001", 0, Option.none⟩]
      (create_admin_token ⟨"k", "HS256", 1440⟩ "admin@x.com" 0) 5
      = .ok ⟨"admin@x.com", "Ada", "0300000001", HashStr.raw "h", 0, true⟩ := by
  rfl

/-- C1 amended: user-login tokens (no `is_admin` claim) are always rejected
by `verify_admin_token`; in the other direction the paths are not
independent — an unexpired admin-issued token is accepted by
`get_current_user` whenever its subject email exists in the store, and is
rejected (401 "User not found") only when the subject is absent. -/
theorem token_path_independence_amended (s : Settings) (email : String)
    (admin_email : Option String) (db : List UserDoc) (u : UserDoc)
    (now t : Nat) :
    (verify_admin_token s (login_issue_token s email now) t
       = .error admin_credentials_exception)
    ∧ (t ≤ now + s.jwt_expiration_time →
        find_one_by_email db (some email) = some u →
        get_current_user s admin_email db (create_admin_token s email now) t
          = .ok { UserInDB.from_mongo u with
                  is_admin := computed_is_admin admin_email u.email })
    ∧ (t ≤ now + s.jwt_expiration_time →
        find_one_by_email db (some email) = Option.none →
        get_current_user s admin_email db (create_admin_token s email now) t
          = .error user_not_found_exception) := by
  refine ⟨verify_admin_token_rejects_login_token s email now t, ?_, ?_⟩
  · intro hexp hfind
    have hnl : ¬ (now + s.jwt_expiration_time < t) := by omega
    simp [get_current_user, verify_token, create_admin_token, create_access_token,
      jwt_decode, hnl, hfind, computed_is_admin]
  · intro hexp hfind
    have hnl : ¬ (now + s.jwt_expiration_time < t) := by omega
    simp [get_current_user, verify_token, create_admin_token, create_access_token,
      jwt_decode, hnl, hfind]

/-- C1 witness: a concrete user token is rejected by the admin path, and a
concrete admin token whose subject is not stored is rejected by the user
path. -/
theorem token_path_independence_amended_witness :
    verify_admin_token ⟨"k", "HS256", 1440⟩
      (login_issue_token ⟨"k", "HS256", 1440⟩ "u@x.com" 0) 5
      = .error admin_credentials_exception
    ∧ get_current_user ⟨"k", "HS256", 1440⟩ Option.none []
        (create_admin_token ⟨"k", "HS256", 1440⟩ "ghost@x.com" 0) 5
      = .error user_not_found_exception :=
  ⟨(token_path_independence_amended ⟨"k", "HS256", 1440⟩ "u@x.com" Option.none []
      ⟨"", HashStr.raw "", "", "", 0, Option.none⟩ 0 5).1,
   (token_path_independence_amended ⟨"k", "HS256", 1440⟩ "ghost@x.com" Option.none []
      ⟨"", HashStr.raw "", "", "", 0, Option.none⟩ 0 5).2.2 (by decide) rfl⟩

/-- C2 counterexample: on a user-issued token, `verify_admin_token` fails
with status 401 (`HTTP_401_UNAUTHORIZED`), which is not the Forbidden
status 403 used by the admin route gates. -/
theorem resolve_admin_error_kind_counterexample :
    verify_admin_token ⟨"k", "HS256", 1440⟩
      (login_issue_token ⟨"k", "HS256", 1440⟩ "user@x.com" 0) 5
      = .error ⟨HTTP_401_UNAUTHORIZED, "Admin access required"⟩
    ∧ HTTP_401_UNAUTHORIZED ≠ HTTP_403_FORBIDDEN := by
  refine ⟨verify_admin_token_rejects_login_token _ "user@x.com" 0 5, by decide⟩

/-- C2 amended: `verify_admin_token` on a user-issued token fails, and
every failure of `verify_admin_token` — user token without `is_admin`,
invalid or expired token, missing subject — is the one 401 Unauthorized
exception with detail "Admin access required", never some other kind. -/
theorem resolve_admin_error_kind_amended (s : Settings) (email : String)
    (now t : Nat) (tok : Token) :
    verify_admin_token s (login_issue_token s email now) t
      = .error admin_credentials_exception
    ∧ ((verify_admin_token s tok t).isOk = false →
        verify_admin_token s tok t = .error admin_credentials_exception)
    ∧ admin_credentials_exception.status = HTTP_401_UNAUTHORIZED := by
  refine ⟨verify_admin_token_rejects_login_token s email now t, ?_, rfl⟩
  intro hfail
  cases hd : jwt_decode tok s.jwt_secret_key t with
  | error e => simp [verify_admin_token, hd]
  | ok payload =>
      cases hs : payload.sub with
      | none => simp [verify_admin_token, hd, hs]
      | some email2 =>
          by_cases ht : ((payload.is_admin.getD (PyVal.bool false)).truthy : Bool)
          · simp [verify_admin_token, hd, hs, ht, Except.isOk, Except.toBool] at hfail
          · simp [verify_admin_token, hd, hs, ht]

/-- C2 witness: concrete failing inputs — a user token and a garbage token
both fail with the single 401 "Admin access required" exception. -/
theorem resolve_admin_error_kind_amended_witness :
    verify_admin_token ⟨"k", "HS256", 1440⟩
      (login_issue_token ⟨"k", "HS256", 1440⟩ "user@x.com" 7) 9
      = .error admin_credentials_exception
    ∧ verify_admin_token ⟨"k", "HS256", 1440⟩ (Token.garbage "tampered") 9
      = .error admin_credentials_exception :=
  ⟨(resolve_admin_error_kind_amended ⟨"k", "HS256", 1440⟩ "user@x.com" 7 9
      (Token.garbage "tampered")).1,
   (resolve_admin_error_kind_amended ⟨"k", "HS256", 1440⟩ "user@x.com" 7 9
      (Token.garbage "tampered")).2.1 rfl⟩

/-- C3: the dashboard operation, called with a valid user token resolving
to a non-admin email, fails 403 Forbidden before the statistics body runs;
the same call with the configured admin's user token passes the gate and
executes. -/
theorem dashboard_gate_forbidden_vs_admin (s : Settings) (admin_e : String)
    (db : List UserDoc) (u : UserDoc) (email : String) (now t : Nat)
    (hfind : find_one_by_email db (some email) = some u)
    (hexp : t ≤ now + s.jwt_expiration_time) :
    (u.email ≠ admin_e →
      get_dashboard_stats s (some admin_e) db (login_issue_token s email now) t
        = .error admin_forbidden_exception)
    ∧ (u.email = admin_e →
      get_dashboard_stats s (some admin_e) db (login_issue_token s email now) t
        = .ok ()) := by
  have hcu := get_current_user_login_token_found s (some admin_e) db u email now t
    hexp hfind
  constructor
  · intro hne
    simp [get_dashboard_stats, hcu, computed_is_admin, hne]
  · intro heq
    simp [get_dashboard_stats, hcu, computed_is_admin, heq]

/-- C3 witness: in a store with a non-admin user and the configured admin,
the non-admin's token is rejected 403 by the dashboard and the admin's
user token passes the gate. -/
theorem dashboard_gate_forbidden_vs_admin_witness :
    get_dashboard_stats ⟨"k", "HS256", 1440⟩ (some "admin@x.com")
      [⟨"bob@x.com", HashStr.raw "h", "Bob", "0300000000", 0, Option.none⟩,
       ⟨"admin@x.com", HashStr.raw "h2", "Ada", "0300000001", 0, Option.none⟩]
      (login_issue_token ⟨"k", "HS256", 1440⟩ "bob@x.com" 0) 5
      = .error admin_forbidden_exception
    ∧ get_dashboard_stats ⟨"k", "HS256", 1440⟩ (some "admin@x.com")
        [⟨"bob@x.com", HashStr.raw "h", "Bob", "0300000000", 0, Option.none⟩,
         ⟨"admin@x.com", HashStr.raw "h2", "Ada", "0300000001", 0, Option.none⟩]
        (login_issue_token ⟨"k", "HS256", 1440⟩ "admin@x.com" 0) 5
      = .ok () :=
  ⟨(dashboard_gate_forbidden_vs_admin ⟨"k", "HS256", 1440⟩ "admin@x.com"
      [⟨"bob@x.com", HashStr.raw "h", "Bob", "0300000000", 0, Option.none⟩,
       ⟨"admin@x.com", HashStr.raw "h2", "Ada", "0300000001", 0, Option.none⟩]
      ⟨"bob@x.com", HashStr.raw "h", "Bob", "0300000000", 0, Option.none⟩
      "bob@x.com" 0 5 rfl (by decide)).1 (by decide),
   (dashboard_gate_forbidden_vs_admin ⟨"k", "HS256", 1440⟩ "admin@x.com"
      [⟨"bob@x.com", HashStr.raw "h", "Bob", "0300000000", 0, Option.none⟩,
       ⟨"admin@x.com", HashStr.raw "h2", "Ada", "0300000001", 0, Option.none⟩]
      ⟨"admin@x.com", HashStr.raw "h2", "Ada", "0300000001", 0, Option.none⟩
      "admin@x.com" 0 5 rfl (by decide)).2 rfl⟩

/-- C4: in every store state reachable under the in-scope operations,
no user document carries an `is_admin` field (registration writes none),
and every successful `get_current_user` resolution recomputes `is_admin`
as the equality of the principal's email with the configured admin email. -/
theorem admin_status_never_persisted (db : List UserDoc)
    (h : UsersReachable db) :
    (∀ d ∈ db, d.is_admin = Option.none)
    ∧ (∀ (s : Settings) (admin_email : Option String) (tok : Token) (t : Nat)
        (u : UserInDB),
        get_current_user s admin_email db tok t = .ok u →
        u.is_admin = computed_is_admin admin_email u.email) := by
  constructor
  · induction h with
    | empty => intro d hd; simp at hd
    | register db db2 user salt now hreach hreg ih =>
        intro d hd
        unfold register_user at hreg
        cases hf : find_one_by_email db (some user.email) with
        | some u2 => rw [hf] at hreg; simp at hreg
        | none =>
            rw [hf] at hreg
            simp at hreg
            subst hreg
            rcases List.mem_append.mp hd with hmem | hmem
            · exact ih d hmem
            · simp at hmem; subst hmem; rfl
  · intro s admin_email tok t u hu
    exact get_current_user_ok_is_admin s admin_email db tok t u hu

/-- C4 witness: the document created by registering a concrete user into
the empty store carries no `is_admin` field. -/
theorem admin_status_never_persisted_witness :
    (⟨"a@x.com", HashStr.bcrypt 7 ("pw123456", 7), "Aisha", "0300000000", 3,
       Option.none⟩ : UserDoc).is_admin = Option.none :=
  (admin_status_never_persisted
    [⟨"a@x.com", HashStr.bcrypt 7 ("pw123456", 7), "Aisha", "0300000000", 3,
       Option.none⟩]
    (UsersReachable.register []
      [⟨"a@x.com", HashStr.bcrypt 7 ("pw123456", 7), "Aisha", "0300000000", 3,
         Option.none⟩]
      ⟨"a@x.com", "pw123456", "Aisha", "0300000000"⟩ 7 3
      UsersReachable.empty rfl)).1 _ (List.Mem.head _)

/-- C5 counterexample: for a valid token whose subject is absent from the
store, `get_current_user` returns an error whose detail string "User not
found" differs from the invalid-token detail "Could not validate
credentials", so what is returned to the caller does distinguish the two
cases. -/
theorem unauthorized_error_class_counterexample :
    get_current_user ⟨"k", "HS256", 1440⟩ Option.none []
      (login_issue_token ⟨"k", "HS256", 1440⟩ "ghost@x.com" 0) 5
      = .error user_not_found_exception
    ∧ get_current_user ⟨"k", "HS256", 1440⟩ Option.none [] (Token.garbage "bad") 5
      = .error credentials_exception
    ∧ user_not_found_exception.detail ≠ credentials_exception.detail :=
  ⟨rfl, rfl, by decide⟩

/-- C5 amended: both failures are HTTPExceptions of the same class with the
same 401 status code, but their detail strings differ ("User not found"
versus "Could not validate credentials"), so the returned bodies are
distinguishable. -/
theorem unauthorized_same_status_distinct_detail (s : Settings)
    (admin_email : Option String) (db : List UserDoc) (email g : String)
    (now t : Nat) (hexp : t ≤ now + s.jwt_expiration_time)
    (hfind : find_one_by_email db (some email) = Option.none) :
    get_current_user s admin_email db (login_issue_token s email now) t
      = .error user_not_found_exception
    ∧ get_current_user s admin_email db (Token.garbage g) t
      = .error credentials_exception
    ∧ user_not_found_exception.status = credentials_exception.status
    ∧ user_not_found_exception.detail ≠ credentials_exception.detail := by
  have hnl : ¬ (now + s.jwt_expiration_time < t) := by omega
  refine ⟨?_, ?_, rfl, by decide⟩
  · simp [get_current_user, verify_token, login_issue_token, create_access_token,
      jwt_decode, hnl, hfind]
  · simp [get_current_user, verify_token, jwt_decode]

/-- C5 witness: concrete missing-user and garbage-token resolutions return
the two 401 errors. -/
theorem unauthorized_same_status_distinct_detail_witness :
    get_current_user ⟨"k", "HS256", 1440⟩ Option.none []
      (login_issue_token ⟨"k", "HS256", 1440⟩ "nobody@x.com" 0) 9
      = .error user_not_found_exception
    ∧ get_current_user ⟨"k", "HS256", 1440⟩ Option.none []
        (Token.garbage "tampered") 9
      = .error credentials_exception :=
  ⟨(unauthorized_same_status_distinct_detail ⟨"k", "HS256", 1440⟩ Option.none []
      "nobody@x.com" "tampered" 0 9 (by decide) rfl).1,
   (unauthorized_same_status_distinct_detail ⟨"k", "HS256", 1440⟩ Option.none []
      "nobody@x.com" "tampered" 0 9 (by decide) rfl).2.1⟩

/-- C9: when `ADMIN_EMAIL` is unset, every successfully resolved principal
has `is_admin = false`, and the dashboard operation, which gates on that
flag, fails 403 Forbidden for every such request. -/
theorem no_admin_email_no_admin (s : Settings) (db : List UserDoc)
    (tok : Token) (t : Nat) (u : UserInDB)
    (h : get_current_user s Option.none db tok t = .ok u) :
    u.is_admin = false
    ∧ get_dashboard_stats s Option.none db tok t
        = .error admin_forbidden_exception := by
  have hadm := get_current_user_ok_is_admin s Option.none db tok t u h
  simp [computed_is_admin] at hadm
  refine ⟨hadm, ?_⟩
  simp [get_dashboard_stats, h, hadm]

/-- C9 witness: with no admin email configured, a stored user resolves with
`is_admin = false` and the dashboard rejects the request 403. -/
theorem no_admin_email_no_admin_witness :
    (⟨"bob@x.com", "Bob", "0300000000", HashStr.raw "h", 0, false⟩
        : UserInDB).is_admin = false
    ∧ get_dashboard_stats ⟨"k", "HS256", 1440⟩ Option.none
        [⟨"bob@x.com", HashStr.raw "h", "Bob", "0300000000", 0, Option.none⟩]
        (login_issue_token ⟨"k", "HS256", 1440⟩ "bob@x.com" 0) 5
      = .error admin_forbidden_exception :=
  no_admin_email_no_admin ⟨"k", "HS256", 1440⟩
    [⟨"bob@x.com", HashStr.raw "h", "Bob", "0300000000", 0, Option.none⟩]
    (login_issue_token ⟨"k", "HS256", 1440⟩ "bob@x.com" 0) 5
    ⟨"bob@x.com", "Bob", "0300000000", HashStr.raw "h", 0, false⟩ rfl
